import Mathlib

/-!
Verification of the StackForge lifecycle controller (`src/stack_forge/cli.py`)
against its natural-language specification.

The development shallowly embeds the CLI commands as pure Lean functions over
an explicit environment (`Env`) describing the outcome of every external
interaction (config file load, subprocess invocations, TCP probes), and over an
explicit descriptor-file state.  Each command returns the ordered list of
observable events it performs (log lines, file writes, subprocess calls, TCP
probes), its exit outcome, and the resulting descriptor-file state.

The readiness prober `_wait_for_port` is embedded separately with an explicit
wall-clock time model: each connect attempt has a duration, and elapsed time
accumulates across the attempt/sleep loop exactly as the source measures it.
-/

namespace StackForge

/-! ## Readiness prober: `_wait_for_port` (src/stack_forge/cli.py lines 237-249) -/

/-- Fixed retry sleep of the polling loop: `time.sleep(2)` (line 249). -/
def pollInterval : Nat := 2

/-- Per-attempt connect timeout: `socket.create_connection(..., timeout=2)` (line 242). -/
def connectTimeout : Nat := 2

/-- One loop of `_wait_for_port`, with an explicit wall-clock model (times in
seconds).  `accepts k` tells whether the k-th connect attempt succeeds, `dur k`
how long that attempt takes (a successful connect returns at once; a failing
one takes up to the per-attempt connect timeout).  `elapsed` is the wall-clock
time since `start_time`.  Mirrors the source: on success return; on failure
check `time.time() - start_time > timeout` and raise `TimeoutError`, else sleep
`pollInterval` and retry.  `fuel` bounds the iterations; for a never-accepting
target the loop provably needs at most `timeout + 2` iterations.  Result:
`some (true, e)` = connected at elapsed `e`; `some (false, e)` = raised
`TimeoutError` at elapsed `e`; `none` = fuel exhausted (model artifact only). -/
def waitForPortLoop (accepts : Nat → Bool) (dur : Nat → Nat) (timeout : Nat) :
    Nat → Nat → Nat → Option (Bool × Nat)
  | 0, _, _ => none
  | fuel+1, k, elapsed =>
    if accepts k then some (true, elapsed + dur k)
    else
      let e := elapsed + dur k
      if timeout < e then some (false, e)
      else waitForPortLoop accepts dur timeout fuel (k+1) (e + pollInterval)

/-- `_wait_for_port`, entered with zero elapsed time and enough fuel for any
never-accepting target. -/
def waitForPort (accepts : Nat → Bool) (dur : Nat → Nat) (timeout : Nat) :
    Option (Bool × Nat) :=
  waitForPortLoop accepts dur timeout (timeout + 2) 0 0

/-- Attempt durations realizing the worst case for a never-accepting target:
the first attempt is refused at once, every later one runs into the full
per-attempt connect timeout. -/
def cexDur : Nat → Nat := fun k => if k = 0 then 0 else connectTimeout

/-! ## Data model -/

/-- A service's enablement value in the `services` mapping of the config
document: a YAML boolean, a (possibly empty) mapping, or null.  Python
truthiness decides whether the service is active (`if e`, line 200; `if
services.get(...)`, lines 218/223): an empty mapping and null are falsy. -/
inductive EnableVal
  | bool (b : Bool)
  | dict (keys : List String)
  | null
  deriving DecidableEq

/-- Python truthiness of an enablement value. -/
def EnableVal.truthy : EnableVal → Bool
  | .bool b => b
  | .dict keys => !keys.isEmpty
  | .null => false

/-- The `service_config.postgres` section; every field optional, defaults
applied at use sites (`.get("port", 5432)` etc., lines 50-53, 219). -/
structure PgSettings where
  port : Option Nat
  user : Option String
  password : Option String
  dbName : Option String
  deriving DecidableEq

/-- The `service_config.airbyte` section (`.get("port", 8000)`, lines 57, 224). -/
structure AbSettings where
  port : Option Nat
  deriving DecidableEq

/-- The parsed config document (`stack_forge.yaml`), restricted to the fields
the controller reads: the `services` mapping (in document order), the
`service_config` sections for postgres and airbyte, and the `dbt` section. -/
structure StackConfig where
  services : List (String × EnableVal)
  pgSettings : Option PgSettings
  abSettings : Option AbSettings
  dbtProjectDir : Option String
  deriving DecidableEq

/-- `services.get(name)`: first binding of `name` in the mapping, if any. -/
def getSvc : List (String × EnableVal) → String → Option EnableVal
  | [], _ => none
  | (k, v) :: t, s => if k = s then some v else getSvc t s

/-- `if services.get(name):` — truthiness of the looked-up enablement value,
with a missing key falsy (Python `None`). -/
def svcTruthy (c : StackConfig) (s : String) : Bool :=
  match getSvc c.services s with
  | some v => v.truthy
  | none => false

/-- `active_services = [s for s, e in services.items() if e]` (line 200). -/
def activeServices (c : StackConfig) : List String :=
  (c.services.filter (fun p => p.2.truthy)).map Prod.fst

/-- `services_config.get("postgres", {}).get("port", 5432)` (lines 50, 219). -/
def StackConfig.pgPort (c : StackConfig) : Nat :=
  (c.pgSettings.bind (·.port)).getD 5432

/-- `services_config.get("airbyte", {}).get("port", 8000)` (lines 57, 224). -/
def StackConfig.abPort (c : StackConfig) : Nat :=
  (c.abSettings.bind (·.port)).getD 8000

/-- The parse of the default config document written by `init`
(`DEFAULT_YAML_CONTENT`, lines 287-316): all three services are declared with
an empty mapping (`postgres: {}` etc.), full `service_config` and `dbt`
sections. -/
def defaultConfig : StackConfig where
  services := [("postgres", .dict []), ("dbt", .dict []), ("airbyte", .dict [])]
  pgSettings := some ⟨some 5432, some "admin", some "password", some "stack_forge_db"⟩
  abSettings := some ⟨some 8000⟩
  dbtProjectDir := some "./dbt_project"

/-! ## Environment and observable events -/

/-- Outcome of one blocking subprocess invocation: clean exit, nonzero exit
(`subprocess.CalledProcessError` under `check=True`), or the tool itself not
invocable (`FileNotFoundError` / `OSError` from `subprocess.run`). -/
inductive SubpRes
  | ok
  | errExit
  | unavailable
  deriving DecidableEq

/-- Result of opening and parsing the config document: missing file
(`FileNotFoundError`), unparseable or wrongly shaped content (`yaml.YAMLError`
or an attribute error on a non-mapping value), or a parsed config. -/
inductive LoadResult
  | notFound
  | malformed
  | parsed (c : StackConfig)
  deriving DecidableEq

/-- The external world a single command invocation runs against: the config
load result, the generated descriptor file's current content (none = file
absent), and the outcome of each external interaction the command may
perform. -/
structure Env where
  configLoad : LoadResult
  genContent : Option String
  startRes : SubpRes
  pgProbeOk : Bool
  abProbeOk : Bool
  psRes : SubpRes
  stopRes : SubpRes
  bashRes : SubpRes
  shRes : SubpRes
  execRes : SubpRes
  logsRes : SubpRes
  deriving DecidableEq

/-- An observable step of a command: a log line at some level (tags abbreviate
the source's message text), a write of the generated descriptor file, a
subprocess invocation with its argv, or a TCP readiness probe. -/
inductive Event
  | logInfo (tag : String)
  | logWarn (tag : String)
  | logError (tag : String)
  | writeGen (content : String)
  | subp (cmd : List String)
  | probe (host : String) (port : Nat) (timeoutS : Nat)
  deriving DecidableEq

/-- How the Python process ends: a controlled exit with a code (normal return
of the command function = 0, `typer.Exit(code=1)` = 1), or an uncontrolled
crash from an unhandled exception. -/
inductive Outcome
  | exit (code : Nat)
  | crash
  deriving DecidableEq

/-- Result of one command invocation: its ordered observable events, its
process outcome, and the descriptor file's content afterwards. -/
structure CmdOut where
  events : List Event
  outcome : Outcome
  gen : Option String
  deriving DecidableEq

/-- Subprocess invocations among a list of events, in order. -/
def subpsOf (evs : List Event) : List (List String) :=
  evs.filterMap fun e =>
    match e with
    | .subp cmd => some cmd
    | _ => none

/-- TCP probes among a list of events, in order, as (host, port, timeout). -/
def probesOf (evs : List Event) : List (String × Nat × Nat) :=
  evs.filterMap fun e =>
    match e with
    | .probe h p t => some (h, p, t)
    | _ => none

/-- Descriptor-file writes among a list of events, in order. -/
def writesOf (evs : List Event) : List String :=
  evs.filterMap fun e =>
    match e with
    | .writeGen s => some s
    | _ => none

/-- Subprocess invocations of a run, in order. -/
def CmdOut.subps (r : CmdOut) : List (List String) :=
  subpsOf r.events

/-- TCP probes of a run, in order, as (host, port, timeout) triples. -/
def CmdOut.probes (r : CmdOut) : List (String × Nat × Nat) :=
  probesOf r.events

/-- Descriptor-file writes of a run, in order. -/
def CmdOut.writes (r : CmdOut) : List String :=
  writesOf r.events

/-- Whether a run logged at error level (a user-facing diagnostic). -/
def hasError (evs : List Event) : Bool :=
  evs.any fun e =>
    match e with
    | .logError _ => true
    | _ => false

/-- Whether a run logged at warning level. -/
def hasWarn (evs : List Event) : Bool :=
  evs.any fun e =>
    match e with
    | .logWarn _ => true
    | _ => false

/-! ## Descriptor rendering -/

/-- Modelled from the spec: the Jinja template `docker-compose.yaml.j2` that
`up` renders (lines 187-193) ships with the package but is not under `src/`;
per spec §4.2 `render` is a deterministic pure function of the config that
emits a definition for every service whose enablement value is truthy and
omits every other service. -/
def render (c : StackConfig) : String :=
  "services:\n" ++ String.join
    ((c.services.filter (fun p => p.2.truthy)).map (fun p => "  " ++ p.1 ++ ":\n"))

/-! ## Commands -/

/-- Path of the generated descriptor (line 23). -/
def GENERATED_FILE : String := ".stack_forge.generated.yaml"

/-- Path of the user config document (line 24). -/
def CONFIG_FILE : String := "stack_forge.yaml"

/-- An invocation of the external runtime against the generated descriptor:
`["docker-compose", "-f", GENERATED_FILE, *rest]`. -/
def composeCmd (rest : List String) : List String :=
  ["docker-compose", "-f", GENERATED_FILE] ++ rest

/-- The connection-info block of `status` (lines 42-70): reopen and parse the
config document; `FileNotFoundError` is caught with a warning, any other
exception with an error log; on success log a connection-info line per
truthy-enabled service. -/
def statusInfoEvents (load : LoadResult) : List Event :=
  match load with
  | .notFound => [.logWarn "config missing, cannot show connection info"]
  | .malformed => [.logError "error while reading config"]
  | .parsed c =>
    [Event.logInfo "connection info header"]
    ++ (if svcTruthy c "postgres" then [Event.logInfo "postgres connection string"] else [])
    ++ (if svcTruthy c "airbyte" then [Event.logInfo "airbyte ui url"] else [])
    ++ (if svcTruthy c "dbt" then [Event.logInfo "dbt usage hint"] else [])

/-- Body of the `status` command (lines 27-70), against a given descriptor-file
state: warn and return if the descriptor is absent; run `docker-compose ps`
with `check=True` (an unhandled `CalledProcessError` or `OSError` crashes the
process); then print connection info. -/
def statusRun (env : Env) (gen : Option String) : List Event × Outcome :=
  let ev0 := [Event.logInfo "checking stack status"]
  match gen with
  | none => (ev0 ++ [Event.logWarn "generated file not found, run up first"], .exit 0)
  | some _ =>
    let ev1 := ev0 ++ [Event.subp (composeCmd ["ps"])]
    match env.psRes with
    | .ok => (ev1 ++ statusInfoEvents env.configLoad, .exit 0)
    | _ => (ev1, .crash)

/-- The `status` command. -/
def statusCmd (env : Env) : CmdOut :=
  let r := statusRun env env.genContent
  ⟨r.1, r.2, env.genContent⟩

/-- Diagnostics logged when a readiness probe raises `TimeoutError`
(lines 228-231). -/
def probeFailEvents : List Event :=
  [.logError "service readiness check failed", .logError "check service logs"]

/-- Tail of a fully successful `up`: the success log and the re-invocation of
`status` (lines 233-234). -/
def upFinish (env : Env) (ev : List Event) (gen : Option String) : CmdOut :=
  let stat := statusRun env gen
  ⟨ev ++ [Event.logInfo "all services started"] ++ stat.1, stat.2, gen⟩

/-- The airbyte readiness step of `up` (lines 223-226): probe
`localhost:abPort` with a 120 s budget when airbyte is truthy-enabled. -/
def probeAirbyte (env : Env) (c : StackConfig) (ev : List Event)
    (gen : Option String) : CmdOut :=
  if svcTruthy c "airbyte" then
    let ev1 := ev ++ [Event.probe "localhost" c.abPort 120]
    if env.abProbeOk then
      upFinish env (ev1 ++ [Event.logInfo "airbyte ready"]) gen
    else ⟨ev1 ++ probeFailEvents, .exit 1, gen⟩
  else upFinish env ev gen

/-- The postgres readiness step of `up` (lines 218-221): probe
`localhost:pgPort` with a 60 s budget when postgres is truthy-enabled, then
proceed to the airbyte step. -/
def probePostgres (env : Env) (c : StackConfig) (ev : List Event)
    (gen : Option String) : CmdOut :=
  if svcTruthy c "postgres" then
    let ev1 := ev ++ [Event.probe "localhost" c.pgPort 60]
    if env.pgProbeOk then
      probeAirbyte env c (ev1 ++ [Event.logInfo "postgres ready"]) gen
    else ⟨ev1 ++ probeFailEvents, .exit 1, gen⟩
  else probeAirbyte env c ev gen

/-- The `up` command (lines 168-234).  Load the config (`FileNotFoundError`
caught with exit 1; a parse or shape error is unhandled and crashes); render
and write the descriptor; if no service is truthy-enabled warn and exit 0;
otherwise `docker-compose up -d` (any exception caught, exit 1), then probe
postgres and airbyte in that fixed order (a `TimeoutError` caught, exit 1),
then report status. -/
def up (env : Env) : CmdOut :=
  match env.configLoad with
  | .notFound =>
    ⟨[.logError "config file not found, run init first"], .exit 1, env.genContent⟩
  | .malformed => ⟨[], .crash, env.genContent⟩
  | .parsed c =>
    let rendered := render c
    let ev0 := [Event.writeGen rendered, Event.logInfo "generated compose file"]
    let gen := some rendered
    if (activeServices c).isEmpty then
      ⟨ev0 ++ [Event.logWarn "no active services, check config"], .exit 0, gen⟩
    else
      let ev1 := ev0 ++ [Event.logInfo "starting services",
        Event.subp (composeCmd ["up", "-d"])]
      match env.startRes with
      | .ok =>
        probePostgres env c (ev1 ++ [Event.logInfo "waiting for services"]) gen
      | _ =>
        ⟨ev1 ++ [Event.logError "failed to start services",
          Event.logError "check docker is running"], .exit 1, gen⟩

/-- The `down` command (lines 252-276): warn and exit 0 if the descriptor is
absent; otherwise `docker-compose down`, appending `-v` when the
clean/volumes flag is set; any exception from the stop is caught with an
error log, and the command returns (exit 0) either way. -/
def down (env : Env) (clean : Bool) : CmdOut :=
  let ev0 := [Event.logInfo "shutting the stack down"]
  match env.genContent with
  | none => ⟨ev0 ++ [Event.logWarn "no descriptor, nothing to stop"], .exit 0, none⟩
  | some g =>
    let cmd := composeCmd ["down"] ++ (if clean then ["-v"] else [])
    let ev1 := ev0 ++ (if clean then [Event.logInfo "also removing data volumes"] else [])
      ++ [Event.subp cmd]
    match env.stopRes with
    | .ok => ⟨ev1 ++ [Event.logInfo "stack stopped"], .exit 0, some g⟩
    | _ => ⟨ev1 ++ [Event.logError "failed to stop the stack"], .exit 0, some g⟩

/-- The `shell` command (lines 105-137): warn and exit 0 if the descriptor is
absent; exec `bash` in the service (`check=True`; only `CalledProcessError`
is caught — a not-invocable runtime crashes); on a caught failure warn and
retry with `sh`, whose failure (any exception) is caught and reported with
the `sh` attempt's error. -/
def shell (env : Env) (svc : String) : CmdOut :=
  match env.genContent with
  | none =>
    ⟨[.logWarn "no descriptor, run up first"], .exit 0, env.genContent⟩
  | some _ =>
    let ev0 := [Event.logInfo "attaching shell",
      Event.subp (composeCmd ["exec", svc, "bash"])]
    match env.bashRes with
    | .ok => ⟨ev0, .exit 0, env.genContent⟩
    | .unavailable => ⟨ev0, .crash, env.genContent⟩
    | .errExit =>
      let ev1 := ev0 ++ [Event.logWarn "bash not found, retrying with sh",
        Event.subp (composeCmd ["exec", svc, "sh"])]
      match env.shRes with
      | .ok => ⟨ev1, .exit 0, env.genContent⟩
      | _ =>
        ⟨ev1 ++ [Event.logError "shell attach failed: sh attempt",
          Event.logError "check the service is running"], .exit 0, env.genContent⟩

/-- The `run` command (lines 140-165): log the command first, then warn and
exit 0 if the descriptor is absent; otherwise exec the argv in the service
(`check=True`), any exception caught with an error log, exit 0 either way. -/
def runExec (env : Env) (svc : String) (args : List String) : CmdOut :=
  let ev0 := [Event.logInfo "running command in service"]
  match env.genContent with
  | none => ⟨ev0 ++ [Event.logWarn "no descriptor, run up first"], .exit 0, env.genContent⟩
  | some _ =>
    let ev1 := ev0 ++ [Event.subp (composeCmd (["exec", svc] ++ args))]
    match env.execRes with
    | .ok => ⟨ev1, .exit 0, env.genContent⟩
    | _ => ⟨ev1 ++ [Event.logError "command failed in service"], .exit 0, env.genContent⟩

/-- The `logs` command (lines 73-102): warn and exit 0 if the descriptor is
absent; otherwise run `docker-compose logs` (no `check`, so a nonzero exit
returns normally; a not-invocable runtime crashes).  The interactive
`KeyboardInterrupt` handler is a real-time path outside this model. -/
def logsCmd (env : Env) (svc : Option String) (follow : Bool) : CmdOut :=
  match env.genContent with
  | none =>
    ⟨[.logWarn "no descriptor, run up first"], .exit 0, env.genContent⟩
  | some _ =>
    let cmd := composeCmd (["logs"] ++ (if follow then ["-f"] else [])
      ++ (match svc with | some s => [s] | none => []))
    let ev0 := [match svc with
      | some _ => Event.logInfo "streaming service logs"
      | none => Event.logInfo "dumping all logs"] ++ [Event.subp cmd]
    match env.logsRes with
    | .unavailable => ⟨ev0, .crash, env.genContent⟩
    | _ => ⟨ev0, .exit 0, env.genContent⟩

/-- Conditions under which `up` raises `typer.Exit(code=1)`: config not found;
or, with at least one active service, a failed start or (start having
succeeded) a readiness timeout at the first probed enabled service. -/
def upProbeTimeout (env : Env) (c : StackConfig) : Bool :=
  (svcTruthy c "postgres" && !env.pgProbeOk) ||
  ((!(svcTruthy c "postgres") || env.pgProbeOk) &&
    svcTruthy c "airbyte" && !env.abProbeOk)

/-- The three exit-1 conditions of `up`, structurally: config-not-found,
runtime-start failure (start is only attempted when some service is active),
or a readiness timeout. -/
def upFails (env : Env) : Bool :=
  match env.configLoad with
  | .notFound => true
  | .malformed => false
  | .parsed c =>
    !(activeServices c).isEmpty &&
      (env.startRes != .ok || upProbeTimeout env c)

/-! ## Concrete test fixtures -/

/-- A baseline environment where every external interaction succeeds and the
config parses to the `init` default. -/
def envBase : Env where
  configLoad := .parsed defaultConfig
  genContent := none
  startRes := .ok
  pgProbeOk := true
  abProbeOk := true
  psRes := .ok
  stopRes := .ok
  bashRes := .ok
  shRes := .ok
  execRes := .ok
  logsRes := .ok

/-- A config with postgres and airbyte truthy-enabled (dbt explicitly off) and
a non-default postgres port. -/
def testConfig : StackConfig where
  services := [("postgres", .bool true), ("airbyte", .bool true), ("dbt", .bool false)]
  pgSettings := some ⟨some 5433, none, none, none⟩
  abSettings := none
  dbtProjectDir := none

/-- Environment for the probe-abort scenario: postgres and airbyte enabled,
start succeeds, the postgres probe times out. -/
def envProbeFail : Env := { envBase with configLoad := .parsed testConfig, pgProbeOk := false }

/-- Environment where the runtime start fails. -/
def envStartFail : Env := { envBase with configLoad := .parsed testConfig, startRes := .errExit }

/-- Environment where the config document exists but does not parse. -/
def envMalformed : Env := { envBase with configLoad := .malformed }

/-- Environment where the config document is absent. -/
def envNotFound : Env := { envBase with configLoad := .notFound }

/-- Environment where everything succeeds except the final `docker-compose ps`
status listing. -/
def envPsFail : Env := { envBase with configLoad := .parsed testConfig, psRes := .errExit }

/-- Fully successful environment over `testConfig`. -/
def envTest : Env := { envBase with configLoad := .parsed testConfig }

/-- Environment with a descriptor on disk and a failing runtime stop. -/
def envStopFail : Env := { envBase with genContent := some "gen", stopRes := .errExit }

/-- Environment with a descriptor on disk and a succeeding runtime stop. -/
def envDownOk : Env := { envBase with genContent := some "gen" }

/-- Environment with a descriptor on disk where both shell candidates fail. -/
def envShellFail : Env :=
  { envBase with genContent := some "gen", bashRes := .errExit, shRes := .errExit }

/-- Environment with a descriptor on disk and a failing command exec. -/
def envExecFail : Env := { envBase with genContent := some "gen", execRes := .errExit }

theorem waitForPortLoop_never_accepts (dur : Nat → Nat) (c timeout : Nat)
    (hc : ∀ k, dur k ≤ c) :
    ∀ fuel k elapsed, elapsed ≤ timeout + pollInterval →
      timeout + pollInterval < elapsed + 2 * fuel →
      ∃ e, waitForPortLoop (fun _ => false) dur timeout fuel k elapsed =
          some (false, e) ∧ timeout < e ∧ e ≤ timeout + pollInterval + c := by
  intro fuel
  induction fuel with
  | zero =>
    intro k elapsed h1 h2
    exact absurd h2 (by omega)
  | succ n ih =>
    intro k elapsed h1 h2
    simp only [waitForPortLoop, Bool.false_eq_true, if_false]
    by_cases hto : timeout < elapsed + dur k
    · refine ⟨elapsed + dur k, ?_, hto, ?_⟩
      · simp [hto]
      · have := hc k
        omega
    · have hle : elapsed + dur k ≤ timeout := by omega
      simp only [if_neg hto]
      apply ih
      · simp only [pollInterval] at *
        omega
      · simp only [pollInterval] at *
        omega

/-- C1 (counterexample): the claimed upper bound `timeoutSeconds +
pollInterval` on the elapsed time at failure is violated by the code.  With a
60-second budget against a target that never accepts, where the first connect
attempt is refused instantly and every later attempt runs into the full
2-second per-attempt connect timeout, `_wait_for_port` raises `TimeoutError`
only at 64 seconds of elapsed wall-clock time, and 64 > 60 + pollInterval. -/
theorem wait_for_port_upper_bound_counterexample :
    waitForPort (fun _ => false) cexDur 60 = some (false, 64) ∧
      60 + pollInterval < 64 := by
  constructor
  · decide
  · decide

/-- C1 (amended): for a target that never accepts a connection,
`_wait_for_port` fails with a readiness-timeout error, and the elapsed
wall-clock time from the first attempt to the failure is at least
`timeoutSeconds` and at most `timeoutSeconds + pollInterval + c`, where `c`
bounds the duration of a single failed connect attempt (the per-attempt
connect timeout). -/
theorem wait_for_port_timeout_bounds (dur : Nat → Nat) (c timeout : Nat)
    (hc : ∀ k, dur k ≤ c) :
    ∃ e, waitForPort (fun _ => false) dur timeout = some (false, e) ∧
      timeout ≤ e ∧ e ≤ timeout + pollInterval + c := by
  obtain ⟨e, he, h1, h2⟩ :=
    waitForPortLoop_never_accepts dur c timeout hc (timeout + 2) 0 0
      (Nat.zero_le _) (by simp only [pollInterval]; omega)
  exact ⟨e, he, Nat.le_of_lt h1, h2⟩

/-- C1 (witness): the amended bound evaluated at a concrete never-accepting
target with instantly refused attempts and a 4-second budget. -/
theorem wait_for_port_timeout_bounds_witness :
    ∃ e, waitForPort (fun _ => false) (fun _ => 0) 4 = some (false, e) ∧
      4 ≤ e ∧ e ≤ 4 + pollInterval + 2 :=
  wait_for_port_timeout_bounds (fun _ => 0) 2 4 (fun _ => Nat.zero_le 2)

/-! ## Helper lemmas about the lifecycle model -/

theorem filter_truthy_ne_nil {l : List (String × EnableVal)} {s : String}
    {v : EnableVal} (hg : getSvc l s = some v) (hv : v.truthy = true) :
    (l.filter (fun p => p.2.truthy)).isEmpty = false := by
  induction l with
  | nil => simp [getSvc] at hg
  | cons hd tl ih =>
    obtain ⟨k, w⟩ := hd
    by_cases hk : k = s
    · simp only [getSvc, if_pos hk] at hg
      obtain rfl : w = v := Option.some.inj hg
      simp [List.filter_cons, hv]
    · simp only [getSvc, if_neg hk] at hg
      have htl := ih hg
      simp only [List.filter_cons]
      split
      · simp
      · exact htl

theorem activeServices_nonempty {c : StackConfig} {s : String}
    (h : svcTruthy c s = true) : (activeServices c).isEmpty = false := by
  unfold svcTruthy at h
  cases hg : getSvc c.services s with
  | none => rw [hg] at h; cases h
  | some v =>
    rw [hg] at h
    unfold activeServices
    have hf := filter_truthy_ne_nil hg h
    cases hfe : c.services.filter (fun p => p.2.truthy) with
    | nil => rw [hfe] at hf; cases hf
    | cons a t => rfl

theorem active_isEmpty_of_all_falsy {c : StackConfig}
    (hall : c.services.all (fun p => !p.2.truthy) = true) :
    (activeServices c).isEmpty = true := by
  unfold activeServices
  have hf : c.services.filter (fun p => p.2.truthy) = [] := by
    rw [List.filter_eq_nil_iff]
    intro a ha
    have := List.all_eq_true.mp hall a ha
    simpa using this
  simp [hf]

theorem statusRun_outcome_ok {env : Env} (g : Option String)
    (h : env.psRes = .ok) : (statusRun env g).2 = .exit 0 := by
  cases g <;> simp [statusRun, h]

theorem probesOf_statusInfo (load : LoadResult) :
    probesOf (statusInfoEvents load) = [] := by
  cases load
  · rfl
  · rfl
  · simp only [statusInfoEvents]
    split_ifs <;> rfl

theorem writesOf_statusInfo (load : LoadResult) :
    writesOf (statusInfoEvents load) = [] := by
  cases load
  · rfl
  · rfl
  · simp only [statusInfoEvents]
    split_ifs <;> rfl

@[simp] theorem probesOf_append (a b : List Event) :
    probesOf (a ++ b) = probesOf a ++ probesOf b :=
  List.filterMap_append a b _

@[simp] theorem writesOf_append (a b : List Event) :
    writesOf (a ++ b) = writesOf a ++ writesOf b :=
  List.filterMap_append a b _

@[simp] theorem subpsOf_append (a b : List Event) :
    subpsOf (a ++ b) = subpsOf a ++ subpsOf b :=
  List.filterMap_append a b _

@[simp] theorem probesOf_nil : probesOf [] = [] := rfl

@[simp] theorem writesOf_nil : writesOf [] = [] := rfl

@[simp] theorem subpsOf_nil : subpsOf [] = [] := rfl

@[simp] theorem probesOf_logInfo (s : String) (t : List Event) :
    probesOf (.logInfo s :: t) = probesOf t := rfl

@[simp] theorem probesOf_logWarn (s : String) (t : List Event) :
    probesOf (.logWarn s :: t) = probesOf t := rfl

@[simp] theorem probesOf_logError (s : String) (t : List Event) :
    probesOf (.logError s :: t) = probesOf t := rfl

@[simp] theorem probesOf_writeGen (s : String) (t : List Event) :
    probesOf (.writeGen s :: t) = probesOf t := rfl

@[simp] theorem probesOf_subp (cmd : List String) (t : List Event) :
    probesOf (.subp cmd :: t) = probesOf t := rfl

@[simp] theorem probesOf_probe (h : String) (p ts : Nat) (t : List Event) :
    probesOf (.probe h p ts :: t) = (h, p, ts) :: probesOf t := rfl

@[simp] theorem writesOf_logInfo (s : String) (t : List Event) :
    writesOf (.logInfo s :: t) = writesOf t := rfl

@[simp] theorem writesOf_logWarn (s : String) (t : List Event) :
    writesOf (.logWarn s :: t) = writesOf t := rfl

@[simp] theorem writesOf_logError (s : String) (t : List Event) :
    writesOf (.logError s :: t) = writesOf t := rfl

@[simp] theorem writesOf_writeGen (s : String) (t : List Event) :
    writesOf (.writeGen s :: t) = s :: writesOf t := rfl

@[simp] theorem writesOf_subp (cmd : List String) (t : List Event) :
    writesOf (.subp cmd :: t) = writesOf t := rfl

@[simp] theorem writesOf_probe (h : String) (p ts : Nat) (t : List Event) :
    writesOf (.probe h p ts :: t) = writesOf t := rfl

@[simp] theorem subpsOf_logInfo (s : String) (t : List Event) :
    subpsOf (.logInfo s :: t) = subpsOf t := rfl

@[simp] theorem subpsOf_logWarn (s : String) (t : List Event) :
    subpsOf (.logWarn s :: t) = subpsOf t := rfl

@[simp] theorem subpsOf_logError (s : String) (t : List Event) :
    subpsOf (.logError s :: t) = subpsOf t := rfl

@[simp] theorem subpsOf_writeGen (s : String) (t : List Event) :
    subpsOf (.writeGen s :: t) = subpsOf t := rfl

@[simp] theorem subpsOf_subp (cmd : List String) (t : List Event) :
    subpsOf (.subp cmd :: t) = cmd :: subpsOf t := rfl

@[simp] theorem subpsOf_probe (h : String) (p ts : Nat) (t : List Event) :
    subpsOf (.probe h p ts :: t) = subpsOf t := rfl

theorem probesOf_statusRun (env : Env) (g : Option String) :
    probesOf (statusRun env g).1 = [] := by
  cases g <;> cases hps : env.psRes <;>
    simp [statusRun, hps, probesOf_statusInfo env.configLoad]

theorem writesOf_statusRun (env : Env) (g : Option String) :
    writesOf (statusRun env g).1 = [] := by
  cases g <;> cases hps : env.psRes <;>
    simp [statusRun, hps, writesOf_statusInfo env.configLoad]

/-! ## C9: empty-mapping enablement values disable a service -/

/-- C9: the default config written by `init` gives all three services an empty
mapping as enablement value; an empty mapping is falsy, so none of them is
active.  For any parsed config in which no service has a truthy enablement
value, `up` still writes the rendered descriptor, logs a warning, invokes no
subprocess at all (in particular not the external runtime), performs no
readiness probing, and exits with code 0. -/
theorem up_all_disabled (env : Env) (c : StackConfig)
    (h : env.configLoad = .parsed c)
    (hall : c.services.all (fun p => !p.2.truthy) = true) :
    (getSvc defaultConfig.services "postgres" = some (.dict []) ∧
      getSvc defaultConfig.services "dbt" = some (.dict []) ∧
      getSvc defaultConfig.services "airbyte" = some (.dict []) ∧
      EnableVal.truthy (.dict []) = false ∧
      activeServices defaultConfig = []) ∧
    (up env).writes = [render c] ∧
    hasWarn (up env).events = true ∧
    (up env).subps = [] ∧
    (up env).probes = [] ∧
    (up env).outcome = .exit 0 := by
  have hact := active_isEmpty_of_all_falsy hall
  refine ⟨⟨by decide, by decide, by decide, by decide, by decide⟩, ?_⟩
  simp [up, h, hact, CmdOut.writes, CmdOut.subps, CmdOut.probes, writesOf,
    subpsOf, probesOf, hasWarn]

/-- C9 (witness): evaluated at the default config itself. -/
theorem up_all_disabled_witness :
    (getSvc defaultConfig.services "postgres" = some (.dict []) ∧
      getSvc defaultConfig.services "dbt" = some (.dict []) ∧
      getSvc defaultConfig.services "airbyte" = some (.dict []) ∧
      EnableVal.truthy (.dict []) = false ∧
      activeServices defaultConfig = []) ∧
    (up envBase).writes = [render defaultConfig] ∧
    hasWarn (up envBase).events = true ∧
    (up envBase).subps = [] ∧
    (up envBase).probes = [] ∧
    (up envBase).outcome = .exit 0 :=
  up_all_disabled envBase defaultConfig rfl (by decide)

/-! ## C3: start failure aborts before probing, descriptor kept -/

/-- C3: when the runtime start step of `up` fails, the command exits with code
1, performs no readiness probe, and the descriptor rendered and written
earlier in the same invocation is still on disk unchanged (the final
descriptor state is exactly the rendered bytes, and that was the only
write). -/
theorem up_start_failure (env : Env) (c : StackConfig)
    (h : env.configLoad = .parsed c)
    (ha : (activeServices c).isEmpty = false)
    (hs : env.startRes ≠ .ok) :
    (up env).outcome = .exit 1 ∧
    (up env).probes = [] ∧
    (up env).writes = [render c] ∧
    (up env).gen = some (render c) ∧
    hasError (up env).events = true := by
  cases hsr : env.startRes
  case ok => exact absurd hsr hs
  all_goals
    simp [up, h, ha, hsr, CmdOut.probes, CmdOut.writes, probesOf, writesOf,
      hasError]

/-- C3 (witness): evaluated at a concrete environment with a failing start. -/
theorem up_start_failure_witness :
    (up envStartFail).outcome = .exit 1 ∧
    (up envStartFail).probes = [] ∧
    (up envStartFail).writes = [render testConfig] ∧
    (up envStartFail).gen = some (render testConfig) ∧
    hasError (up envStartFail).events = true :=
  up_start_failure envStartFail testConfig rfl (by decide) (by decide)

/-! ## C2: probe order, abort on timeout, no rollback -/

theorem subpsOf_statusInfo (load : LoadResult) :
    subpsOf (statusInfoEvents load) = [] := by
  cases load
  · rfl
  · rfl
  · simp only [statusInfoEvents]
    split_ifs <;> rfl

/-- C2: under any parsed config, `up` probes at most postgres (60 s budget)
and airbyte (120 s budget), one at a time and always in that dependency
order.  If postgres is enabled, start succeeded and its probe times out, the
operation exits with code 1, airbyte is never probed, and the only runtime
invocation performed is the start — in particular no stop, so the started
containers are left running.  Likewise a failing airbyte probe (after a
successful or skipped postgres probe) exits 1 with the start as the only
runtime invocation. -/
theorem up_probe_order_and_abort (env : Env) (c : StackConfig)
    (h : env.configLoad = .parsed c) :
    ((up env).probes = [] ∨
      (up env).probes = [("localhost", c.pgPort, 60)] ∨
      (up env).probes = [("localhost", c.abPort, 120)] ∨
      (up env).probes = [("localhost", c.pgPort, 60), ("localhost", c.abPort, 120)]) ∧
    (svcTruthy c "postgres" = true → env.startRes = .ok → env.pgProbeOk = false →
      (up env).outcome = .exit 1 ∧
      (up env).probes = [("localhost", c.pgPort, 60)] ∧
      (up env).subps = [composeCmd ["up", "-d"]]) ∧
    (svcTruthy c "airbyte" = true → env.startRes = .ok →
      (svcTruthy c "postgres" = true → env.pgProbeOk = true) →
      env.abProbeOk = false →
      (up env).outcome = .exit 1 ∧
      (up env).subps = [composeCmd ["up", "-d"]]) ∧
    (svcTruthy c "postgres" = true → svcTruthy c "airbyte" = true →
      env.startRes = .ok → env.pgProbeOk = true →
      (up env).probes =
        [("localhost", c.pgPort, 60), ("localhost", c.abPort, 120)]) := by
  refine ⟨?_, ?_, ?_, ?_⟩
  · by_cases hae : (activeServices c).isEmpty
    · left
      simp [up, h, hae, CmdOut.probes]
    · cases hsr : env.startRes with
      | errExit =>
        left
        simp [up, h, hae, hsr, CmdOut.probes]
      | unavailable =>
        left
        simp [up, h, hae, hsr, CmdOut.probes]
      | ok =>
        by_cases hpg : svcTruthy c "postgres" <;>
          by_cases hpgo : env.pgProbeOk <;>
          by_cases hab : svcTruthy c "airbyte" <;>
          by_cases habo : env.abProbeOk <;>
          simp [up, h, hae, hsr, hpg, hpgo, hab, habo, probePostgres,
            probeAirbyte, upFinish, CmdOut.probes,
            probesOf_statusRun, probeFailEvents]
  · intro hpg hsr hpgo
    have hae := activeServices_nonempty (c := c) hpg
    refine ⟨?_, ?_, ?_⟩ <;>
      simp [up, h, hae, hsr, hpg, hpgo, probePostgres, probeAirbyte,
        CmdOut.probes, CmdOut.subps, probeFailEvents]
  · intro hab hsr hpgi habo
    have hae := activeServices_nonempty (c := c) hab
    by_cases hpg : svcTruthy c "postgres"
    · have hpgo := hpgi hpg
      refine ⟨?_, ?_⟩ <;>
        simp [up, h, hae, hsr, hpg, hpgo, hab, habo, probePostgres,
          probeAirbyte, CmdOut.subps, probeFailEvents]
    · refine ⟨?_, ?_⟩ <;>
        simp [up, h, hae, hsr, hpg, hab, habo, probePostgres, probeAirbyte,
          CmdOut.subps, probeFailEvents]
  · intro hpg hab hsr hpgo
    have hae := activeServices_nonempty (c := c) hpg
    by_cases habo : env.abProbeOk <;>
      simp [up, h, hae, hsr, hpg, hpgo, hab, habo, probePostgres, probeAirbyte,
        upFinish, CmdOut.probes, probesOf_statusRun, probeFailEvents]

/-- C2 (witness): the abort scenario evaluated at a concrete environment with
both services enabled and a timed-out postgres probe. -/
theorem up_probe_order_and_abort_witness :
    ((up envProbeFail).probes = [] ∨
      (up envProbeFail).probes = [("localhost", testConfig.pgPort, 60)] ∨
      (up envProbeFail).probes = [("localhost", testConfig.abPort, 120)] ∨
      (up envProbeFail).probes =
        [("localhost", testConfig.pgPort, 60), ("localhost", testConfig.abPort, 120)]) ∧
    (svcTruthy testConfig "postgres" = true → envProbeFail.startRes = .ok →
      envProbeFail.pgProbeOk = false →
      (up envProbeFail).outcome = .exit 1 ∧
      (up envProbeFail).probes = [("localhost", testConfig.pgPort, 60)] ∧
      (up envProbeFail).subps = [composeCmd ["up", "-d"]]) ∧
    (svcTruthy testConfig "airbyte" = true → envProbeFail.startRes = .ok →
      (svcTruthy testConfig "postgres" = true → envProbeFail.pgProbeOk = true) →
      envProbeFail.abProbeOk = false →
      (up envProbeFail).outcome = .exit 1 ∧
      (up envProbeFail).subps = [composeCmd ["up", "-d"]]) ∧
    (svcTruthy testConfig "postgres" = true → svcTruthy testConfig "airbyte" = true →
      envProbeFail.startRes = .ok → envProbeFail.pgProbeOk = true →
      (up envProbeFail).probes =
        [("localhost", testConfig.pgPort, 60), ("localhost", testConfig.abPort, 120)]) :=
  up_probe_order_and_abort envProbeFail testConfig rfl

/-! ## C4: exit codes of `up` -/

/-- C4 (counterexample): the claim "exit code 1 exactly on config-not-found,
start failure or readiness timeout; 0 in every other case" fails on the code.
With a config document that exists but does not parse, none of the three
conditions holds, yet `up` does not exit 0: `yaml.safe_load`'s error is
unhandled and the process crashes.  The same happens when everything
succeeds but the final `docker-compose ps` status listing fails. -/
theorem up_exit_code_counterexample :
    (upFails envMalformed = false ∧ (up envMalformed).outcome ≠ .exit 0 ∧
      (up envMalformed).outcome = .crash) ∧
    (upFails envPsFail = false ∧ (up envPsFail).outcome ≠ .exit 0 ∧
      (up envPsFail).outcome = .crash) := by
  refine ⟨⟨by decide, by decide, by decide⟩, ⟨by decide, by decide, by decide⟩⟩

/-- C4 (amended): provided the config document (when present) parses to the
expected shape and the final status listing succeeds, `up` exits with code 1
exactly when the config is not found, the runtime start fails (start being
attempted, i.e. some service is active), or a readiness probe times out, and
exits with code 0 in every other case; if the config is present but
malformed, or the final status listing fails, the process instead crashes on
an unhandled exception. -/
theorem up_exit_code (env : Env)
    (hwf : env.configLoad ≠ .malformed) (hps : env.psRes = .ok) :
    (up env).outcome = if upFails env then Outcome.exit 1 else Outcome.exit 0 := by
  cases hload : env.configLoad with
  | notFound => simp [up, upFails, hload]
  | malformed => exact absurd hload hwf
  | parsed c =>
    by_cases hae : (activeServices c).isEmpty
    · simp [up, upFails, hload, hae]
    · cases hsr : env.startRes with
      | errExit => simp [up, upFails, hload, hae, hsr]
      | unavailable => simp [up, upFails, hload, hae, hsr]
      | ok =>
        by_cases hpg : svcTruthy c "postgres" <;>
          by_cases hpgo : env.pgProbeOk <;>
          by_cases hab : svcTruthy c "airbyte" <;>
          by_cases habo : env.abProbeOk <;>
          simp [up, upFails, upProbeTimeout, hload, hae, hsr, hpg, hpgo, hab,
            habo, probePostgres, probeAirbyte, upFinish,
            statusRun_outcome_ok _ hps]

/-- C4 (witness): the amended statement evaluated at the config-not-found
environment and the fully successful environment. -/
theorem up_exit_code_witness :
    ((up envNotFound).outcome =
      if upFails envNotFound then Outcome.exit 1 else Outcome.exit 0) ∧
    ((up envTest).outcome =
      if upFails envTest then Outcome.exit 1 else Outcome.exit 0) :=
  ⟨up_exit_code envNotFound (by decide) (by decide),
   up_exit_code envTest (by decide) (by decide)⟩

/-! ## C5: error taxonomy at the CLI boundary -/

/-- C5 (counterexample): the claim that every taxonomy error yields a
diagnostic plus a non-zero exit and that no command crashes uncontrolled is
false on the code at concrete inputs: a `ConfigParseError` makes `up` crash
on an unhandled exception (no diagnostic, no controlled exit);
`RuntimeStopFailed` in `down`, `ExecFailed` in `shell` (both candidates) and
in `run` each log a diagnostic but exit with code 0, which is not
non-zero. -/
theorem error_taxonomy_counterexample :
    ((up envMalformed).outcome = .crash ∧ hasError (up envMalformed).events = false) ∧
    ((down envStopFail true).outcome = .exit 0 ∧
      hasError (down envStopFail true).events = true) ∧
    ((shell envShellFail "dbt").outcome = .exit 0 ∧
      hasError (shell envShellFail "dbt").events = true) ∧
    ((runExec envExecFail "dbt" ["ls"]).outcome = .exit 0 ∧
      hasError (runExec envExecFail "dbt" ["ls"]).events = true) := by
  refine ⟨⟨by decide, by decide⟩, ⟨by decide, by decide⟩,
    ⟨by decide, by decide⟩, ⟨by decide, by decide⟩⟩

/-- C5 (amended): each taxonomy error the CLI catches produces a user-facing
diagnostic, but the exit codes differ by command and some errors are not
caught at all: `ConfigNotFound`, a start failure and a readiness timeout in
`up` are diagnosed and exit 1; a parse error in `up` crashes the process
uncontrolled; a stop failure in `down`, an exec failure of both shell
candidates in `shell`, and an exec failure in `run` are each diagnosed but
exit 0. -/
theorem error_taxonomy_behavior (e1 e2 e3 e4 e5 e6 e7 : Env)
    (c3 c4 : StackConfig) (g5 g6 g7 : String) (svc : String) (args : List String)
    (h1 : e1.configLoad = .notFound)
    (h2 : e2.configLoad = .malformed)
    (h3 : e3.configLoad = .parsed c3)
    (h3a : (activeServices c3).isEmpty = false)
    (h3b : e3.startRes ≠ .ok)
    (h4 : e4.configLoad = .parsed c4)
    (h4a : svcTruthy c4 "postgres" = true)
    (h4b : e4.startRes = .ok)
    (h4c : e4.pgProbeOk = false)
    (h5 : e5.genContent = some g5) (h5a : e5.stopRes ≠ .ok)
    (h6 : e6.genContent = some g6) (h6a : e6.bashRes = .errExit)
    (h6b : e6.shRes ≠ .ok)
    (h7 : e7.genContent = some g7) (h7a : e7.execRes ≠ .ok) :
    ((up e1).outcome = .exit 1 ∧ hasError (up e1).events = true) ∧
    ((up e2).outcome = .crash) ∧
    ((up e3).outcome = .exit 1 ∧ hasError (up e3).events = true) ∧
    ((up e4).outcome = .exit 1 ∧ hasError (up e4).events = true) ∧
    ((down e5 true).outcome = .exit 0 ∧ hasError (down e5 true).events = true) ∧
    ((shell e6 svc).outcome = .exit 0 ∧ hasError (shell e6 svc).events = true) ∧
    ((runExec e7 svc args).outcome = .exit 0 ∧
      hasError (runExec e7 svc args).events = true) := by
  refine ⟨⟨?_, ?_⟩, ?_, ⟨?_, ?_⟩, ⟨?_, ?_⟩, ⟨?_, ?_⟩, ⟨?_, ?_⟩, ⟨?_, ?_⟩⟩
  · simp [up, h1]
  · simp [up, h1, hasError]
  · simp [up, h2]
  · cases hsr : e3.startRes with
    | ok => exact absurd hsr h3b
    | errExit => simp [up, h3, h3a, hsr]
    | unavailable => simp [up, h3, h3a, hsr]
  · cases hsr : e3.startRes with
    | ok => exact absurd hsr h3b
    | errExit => simp [up, h3, h3a, hsr, hasError]
    | unavailable => simp [up, h3, h3a, hsr, hasError]
  · have hae := activeServices_nonempty (c := c4) h4a
    simp [up, h4, hae, h4b, h4a, h4c, probePostgres, probeFailEvents]
  · have hae := activeServices_nonempty (c := c4) h4a
    simp [up, h4, hae, h4b, h4a, h4c, probePostgres, probeFailEvents, hasError]
  · cases hst : e5.stopRes with
    | ok => exact absurd hst h5a
    | errExit => simp [down, h5, hst]
    | unavailable => simp [down, h5, hst]
  · cases hst : e5.stopRes with
    | ok => exact absurd hst h5a
    | errExit => simp [down, h5, hst, hasError]
    | unavailable => simp [down, h5, hst, hasError]
  · cases hsh : e6.shRes with
    | ok => exact absurd hsh h6b
    | errExit => simp [shell, h6, h6a, hsh]
    | unavailable => simp [shell, h6, h6a, hsh]
  · cases hsh : e6.shRes with
    | ok => exact absurd hsh h6b
    | errExit => simp [shell, h6, h6a, hsh, hasError]
    | unavailable => simp [shell, h6, h6a, hsh, hasError]
  · cases hex : e7.execRes with
    | ok => exact absurd hex h7a
    | errExit => simp [runExec, h7, hex]
    | unavailable => simp [runExec, h7, hex]
  · cases hex : e7.execRes with
    | ok => exact absurd hex h7a
    | errExit => simp [runExec, h7, hex, hasError]
    | unavailable => simp [runExec, h7, hex, hasError]

/-- C5 (witness): the amended behavior evaluated at concrete environments for
each error case. -/
theorem error_taxonomy_behavior_witness :
    ((up envNotFound).outcome = .exit 1 ∧ hasError (up envNotFound).events = true) ∧
    ((up envMalformed).outcome = .crash) ∧
    ((up envStartFail).outcome = .exit 1 ∧ hasError (up envStartFail).events = true) ∧
    ((up envProbeFail).outcome = .exit 1 ∧ hasError (up envProbeFail).events = true) ∧
    ((down envStopFail true).outcome = .exit 0 ∧
      hasError (down envStopFail true).events = true) ∧
    ((shell envShellFail "dbt").outcome = .exit 0 ∧
      hasError (shell envShellFail "dbt").events = true) ∧
    ((runExec envExecFail "dbt" ["ls"]).outcome = .exit 0 ∧
      hasError (runExec envExecFail "dbt" ["ls"]).events = true) :=
  error_taxonomy_behavior envNotFound envMalformed envStartFail envProbeFail
    envStopFail envShellFail envExecFail testConfig testConfig "gen" "gen" "gen"
    "dbt" ["ls"] (by decide) (by decide) (by decide) (by decide) (by decide)
    (by decide) (by decide) (by decide) (by decide) (by decide) (by decide)
    (by decide) (by decide) (by decide) (by decide) (by decide)

/-! ## C6: deterministic, idempotent rendering -/

theorem up_genContent_irrelevant (env : Env) (c : StackConfig) (p : Option String)
    (h : env.configLoad = .parsed c) :
    up { env with genContent := p } = up env := by
  cases env with
  | mk load g s pg ab ps st ba sh ex lo =>
    have h' : load = .parsed c := h
    subst h'
    rfl

theorem up_writes_parsed (env : Env) (c : StackConfig)
    (h : env.configLoad = .parsed c) :
    (up env).writes = [render c] ∧ (up env).gen = some (render c) := by
  by_cases hae : (activeServices c).isEmpty
  · simp [up, h, hae, CmdOut.writes]
  · cases hsr : env.startRes with
    | errExit => simp [up, h, hae, hsr, CmdOut.writes]
    | unavailable => simp [up, h, hae, hsr, CmdOut.writes]
    | ok =>
      by_cases hpg : svcTruthy c "postgres" <;>
        by_cases hpgo : env.pgProbeOk <;>
        by_cases hab : svcTruthy c "airbyte" <;>
        by_cases habo : env.abProbeOk <;>
        simp [up, h, hae, hsr, hpg, hpgo, hab, habo, probePostgres,
          probeAirbyte, upFinish, CmdOut.writes, writesOf_statusRun,
          probeFailEvents]

/-- C6: for a fixed parsed config, the rendered descriptor is a pure function
of the config, so a successful `up` writes exactly `render c`, and running
`up` again against the resulting on-disk state (same config, same
environment) succeeds again and writes the byte-identical descriptor; the
write fully overwrites whatever descriptor content was on disk before, since
the final descriptor state is `render c` regardless of the prior content
(shown for a stale prior descriptor). -/
theorem up_idempotent_rerender (env : Env) (c : StackConfig)
    (h : env.configLoad = .parsed c)
    (hok : (up env).outcome = .exit 0) :
    (up env).writes = [render c] ∧
    (up env).gen = some (render c) ∧
    ((up { env with genContent := (up env).gen }).outcome = .exit 0 ∧
      (up { env with genContent := (up env).gen }).writes = [render c] ∧
      (up { env with genContent := (up env).gen }).gen = some (render c)) ∧
    (up { env with genContent := some ("stale " ++ render c) }).gen =
      some (render c) := by
  obtain ⟨hw, hg⟩ := up_writes_parsed env c h
  have hirr1 := up_genContent_irrelevant env c (up env).gen h
  have hirr2 := up_genContent_irrelevant env c (some ("stale " ++ render c)) h
  exact ⟨hw, hg,
    ⟨by rw [hirr1]; exact hok, by rw [hirr1]; exact hw, by rw [hirr1]; exact hg⟩,
    by rw [hirr2]; exact hg⟩

/-- C6 (witness): evaluated at the fully successful environment over
`testConfig`. -/
theorem up_idempotent_rerender_witness :
    (up envTest).writes = [render testConfig] ∧
    (up envTest).gen = some (render testConfig) ∧
    ((up { envTest with genContent := (up envTest).gen }).outcome = .exit 0 ∧
      (up { envTest with genContent := (up envTest).gen }).writes = [render testConfig] ∧
      (up { envTest with genContent := (up envTest).gen }).gen = some (render testConfig)) ∧
    (up { envTest with genContent := some ("stale " ++ render testConfig) }).gen =
      some (render testConfig) :=
  up_idempotent_rerender envTest testConfig rfl (by decide)

/-! ## C7: shell candidate fallback order -/

/-- C7: with a descriptor on disk, when the primary shell candidate (`bash`)
exec fails, the secondary candidate (`sh`) is attempted — the exec
invocations are exactly bash then sh, in that order — before any exec
failure is reported; if `sh` succeeds the command ends cleanly, and if all
candidates fail the failure surfaced in the diagnostic is the last (`sh`)
attempt's, logged only after both attempts. -/
theorem shell_fallback_order (env : Env) (svc : String) (g : String)
    (hg : env.genContent = some g) (hb : env.bashRes = .errExit) :
    (shell env svc).subps =
      [composeCmd ["exec", svc, "bash"], composeCmd ["exec", svc, "sh"]] ∧
    (env.shRes = .ok → (shell env svc).outcome = .exit 0 ∧
      hasError (shell env svc).events = false) ∧
    (env.shRes ≠ .ok →
      (shell env svc).events =
        [.logInfo "attaching shell", .subp (composeCmd ["exec", svc, "bash"]),
          .logWarn "bash not found, retrying with sh",
          .subp (composeCmd ["exec", svc, "sh"]),
          .logError "shell attach failed: sh attempt",
          .logError "check the service is running"] ∧
      (shell env svc).outcome = .exit 0) := by
  refine ⟨?_, ?_, ?_⟩
  · cases hsh : env.shRes <;> simp [shell, hg, hb, hsh, CmdOut.subps]
  · intro hsh
    simp [shell, hg, hb, hsh, hasError]
  · intro hsh
    cases hsh2 : env.shRes with
    | ok => exact absurd hsh2 hsh
    | errExit => simp [shell, hg, hb, hsh2]
    | unavailable => simp [shell, hg, hb, hsh2]

/-- C7 (witness): evaluated where both candidates fail. -/
theorem shell_fallback_order_witness :
    (shell envShellFail "dbt").subps =
      [composeCmd ["exec", "dbt", "bash"], composeCmd ["exec", "dbt", "sh"]] ∧
    (envShellFail.shRes = .ok → (shell envShellFail "dbt").outcome = .exit 0 ∧
      hasError (shell envShellFail "dbt").events = false) ∧
    (envShellFail.shRes ≠ .ok →
      (shell envShellFail "dbt").events =
        [.logInfo "attaching shell", .subp (composeCmd ["exec", "dbt", "bash"]),
          .logWarn "bash not found, retrying with sh",
          .subp (composeCmd ["exec", "dbt", "sh"]),
          .logError "shell attach failed: sh attempt",
          .logError "check the service is running"] ∧
      (shell envShellFail "dbt").outcome = .exit 0) :=
  shell_fallback_order envShellFail "dbt" "gen" rfl rfl

/-! ## C8: `down` exit codes and the clean/volumes flag -/

/-- C8: `down` exits 0 on a successful stop; when the generated descriptor is
absent it logs a warning, invokes no subprocess at all, and still exits 0;
and the clean/volumes flag appends `-v` to the runtime stop invocation,
which is otherwise a plain `docker-compose down`. -/
theorem down_behavior (e1 e2 : Env) (g : String) (cl : Bool)
    (h1 : e1.genContent = none)
    (h2 : e2.genContent = some g) (h2a : e2.stopRes = .ok) :
    ((down e1 cl).outcome = .exit 0 ∧ hasWarn (down e1 cl).events = true ∧
      (down e1 cl).subps = []) ∧
    ((down e2 cl).outcome = .exit 0) ∧
    (down e2 true).subps = [composeCmd ["down", "-v"]] ∧
    (down e2 false).subps = [composeCmd ["down"]] := by
  refine ⟨⟨?_, ?_, ?_⟩, ?_, ?_, ?_⟩
  · simp [down, h1]
  · simp [down, h1, hasWarn]
  · simp [down, h1, CmdOut.subps]
  · simp [down, h2, h2a]
  · simp [down, h2, h2a, CmdOut.subps, composeCmd]
  · simp [down, h2, h2a, CmdOut.subps]

/-- C8 (witness): evaluated at a descriptor-less environment and a
successful-stop environment. -/
theorem down_behavior_witness :
    ((down envBase true).outcome = .exit 0 ∧ hasWarn (down envBase true).events = true ∧
      (down envBase true).subps = []) ∧
    ((down envDownOk true).outcome = .exit 0) ∧
    (down envDownOk true).subps = [composeCmd ["down", "-v"]] ∧
    (down envDownOk false).subps = [composeCmd ["down"]] :=
  down_behavior envBase envDownOk "gen" true rfl rfl rfl

/-! ## C10: descriptor-missing commands warn and do nothing -/

/-- C10: when the generated descriptor file does not exist, each of `status`,
`logs`, `shell` and `run` logs a warning, invokes no subprocess at all (in
particular never the external runtime), and exits with code 0. -/
theorem missing_descriptor_noop (env : Env) (hg : env.genContent = none)
    (svc : String) (args : List String) (svcOpt : Option String)
    (follow : Bool) :
    ((statusCmd env).outcome = .exit 0 ∧ hasWarn (statusCmd env).events = true ∧
      (statusCmd env).subps = []) ∧
    ((logsCmd env svcOpt follow).outcome = .exit 0 ∧
      hasWarn (logsCmd env svcOpt follow).events = true ∧
      (logsCmd env svcOpt follow).subps = []) ∧
    ((shell env svc).outcome = .exit 0 ∧ hasWarn (shell env svc).events = true ∧
      (shell env svc).subps = []) ∧
    ((runExec env svc args).outcome = .exit 0 ∧
      hasWarn (runExec env svc args).events = true ∧
      (runExec env svc args).subps = []) := by
  refine ⟨⟨?_, ?_, ?_⟩, ⟨?_, ?_, ?_⟩, ⟨?_, ?_, ?_⟩, ⟨?_, ?_, ?_⟩⟩ <;>
    simp [statusCmd, statusRun, logsCmd, shell, runExec, hg, hasWarn,
      CmdOut.subps]

/-- C10 (witness): evaluated at the descriptor-less base environment. -/
theorem missing_descriptor_noop_witness :
    ((statusCmd envBase).outcome = .exit 0 ∧ hasWarn (statusCmd envBase).events = true ∧
      (statusCmd envBase).subps = []) ∧
    ((logsCmd envBase (some "dbt") true).outcome = .exit 0 ∧
      hasWarn (logsCmd envBase (some "dbt") true).events = true ∧
      (logsCmd envBase (some "dbt") true).subps = []) ∧
    ((shell envBase "dbt").outcome = .exit 0 ∧ hasWarn (shell envBase "dbt").events = true ∧
      (shell envBase "dbt").subps = []) ∧
    ((runExec envBase "dbt" ["ls"]).outcome = .exit 0 ∧
      hasWarn (runExec envBase "dbt" ["ls"]).events = true ∧
      (runExec envBase "dbt" ["ls"]).subps = []) :=
  missing_descriptor_noop envBase rfl "dbt" ["ls"] (some "dbt") true

end StackForge
